import Mathlib

/-!
Verification development for the simple-router client-side navigation engine
(src/router.js).  The route matcher, the navigation controller and the tree
reconciler are shallowly embedded as executable Lean definitions, translated
function by function from the source; browser collaborators (URL resolution,
transport, history store, live DOM) are passed in as explicit parameters or
modelled as effect traces, following the spec's external-interface boundary.
-/

namespace SimpleRouter

/-! ### Route matcher: `_pathToRegex` (src/router.js lines 413-425)

The three string rewrites of `_pathToRegex` are embedded literally:
step 1 escapes the characters of the class `[.+?^=!:${}()|\\]`,
step 2 rewrites occurrences of backslash-asterisk to a `(.*)` capture,
step 3 rewrites `:name` (name = `[A-Za-z0-9_]+`, greedy) to a `([^/]+)`
capture while collecting the key names left to right.
`new RegExp` is modelled by a well-formedness check: JavaScript rejects a
regular-expression source with an unmatched group parenthesis, an
unterminated character class or a dangling escape with a `SyntaxError`
(a necessary condition for `new RegExp` to succeed, sufficient for the
patterns analysed here). -/

/-- Characters escaped by step 1 of `_pathToRegex`
(the regex character class in line 417 of the source). -/
def escapeSet : List Char :=
  ['.', '+', '?', '^', '=', '!', ':', '$', '{', '}', '(', ')', '|', '\\']

/-- Step 1: prefix every character of `escapeSet` with a backslash. -/
def escapeStep : List Char → List Char
  | [] => []
  | c :: r => if c ∈ escapeSet then '\\' :: c :: escapeStep r else c :: escapeStep r

/-- Step 2: rewrite every occurrence of backslash-asterisk to `(.*)`
(left to right, non-overlapping), as `pattern.replace(/\\\*/g, "(.*)")` does. -/
def starStep : List Char → List Char
  | '\\' :: '*' :: r => '(' :: '.' :: '*' :: ')' :: starStep r
  | c :: r => c :: starStep r
  | [] => []

/-- Word characters of the parameter-name class `[A-Za-z0-9_]`. -/
def isWordChar (c : Char) : Bool :=
  ('A' ≤ c && c ≤ 'Z') || ('a' ≤ c && c ≤ 'z') || ('0' ≤ c && c ≤ '9') || c = '_'

/-- The capture inserted for a parameter: the characters of `([^/]+)`. -/
def paramCapture : List Char :=
  ['(', '[', '^', '/', ']', '+', ')']

/-- Step 3 worker: rewrite every match of `:([A-Za-z0-9_]+)` to `([^/]+)`,
collecting parameter names in order.  Fuel is the length of the input; every
step consumes at least one character, so the fuel never runs out on the
initial call of `paramStep`. -/
def paramGo : Nat → List Char → List Char × List String
  | 0, l => (l, [])
  | _ + 1, [] => ([], [])
  | fuel + 1, ':' :: r =>
    let w := r.takeWhile isWordChar
    if w.isEmpty then
      let (p, ks) := paramGo fuel r
      (':' :: p, ks)
    else
      let (p, ks) := paramGo fuel (r.drop w.length)
      (paramCapture ++ p, w.asString :: ks)
  | fuel + 1, c :: r =>
    let (p, ks) := paramGo fuel r
    (c :: p, ks)

/-- Step 3 of `_pathToRegex`: parameter substitution and key collection. -/
def paramStep (l : List Char) : List Char × List String :=
  paramGo l.length l

/-- Scanner for the necessary well-formedness of a JavaScript regex source:
group parentheses balanced, character classes terminated, no dangling
escape.  `depth` counts open groups, `inClass` tracks a character class. -/
def balAux : List Char → Nat → Bool → Bool
  | [], d, inClass => !inClass && d = 0
  | '\\' :: rest, d, inClass =>
    match rest with
    | [] => false
    | _ :: r => balAux r d inClass
  | '(' :: r, d, false => balAux r (d + 1) false
  | ')' :: _, 0, false => false
  | ')' :: r, d + 1, false => balAux r d false
  | '[' :: r, d, false => balAux r d true
  | ']' :: r, d, true => balAux r d false
  | _ :: r, d, ic => balAux r d ic

/-- Well-formedness of a regex source (see `balAux`). -/
def regexWellFormed (l : List Char) : Bool :=
  balAux l 0 false

/-- The output of `_pathToRegex`: the anchored regex source and the key list. -/
structure Compiled where
  pattern : String
  keys : List String
  deriving DecidableEq, Repr

/-- Embedding of `_pathToRegex` (lines 413-425): the three rewrites, then
`new RegExp` on the anchored source, which throws a `SyntaxError` on an
ill-formed source (modelled by `regexWellFormed`). -/
def pathToRegex (path : String) : Except String Compiled :=
  let p1 := escapeStep path.data
  let p2 := starStep p1
  let (p3, keys) := paramStep p2
  let pat := '^' :: p3 ++ ['$']
  if regexWellFormed pat then Except.ok ⟨pat.asString, keys⟩
  else Except.error "SyntaxError"

/-! ### `decodeURIComponent`

JavaScript's `decodeURIComponent` decodes `%XX` byte sequences, which must
form valid UTF-8 (no truncated sequence, no bad hex digit, no malformed,
overlong or surrogate encoding); any violation throws a `URIError`,
modelled as `none`. -/

/-- Value of a hexadecimal digit. -/
def hexVal (c : Char) : Option Nat :=
  if '0' ≤ c ∧ c ≤ '9' then some (c.toNat - 48)
  else if 'A' ≤ c ∧ c ≤ 'F' then some (c.toNat - 55)
  else if 'a' ≤ c ∧ c ≤ 'f' then some (c.toNat - 87)
  else none

/-- Lower bound for the second byte of a three-byte UTF-8 sequence. -/
def cont2Lo (b1 : Nat) : Nat := if b1 = 224 then 160 else 128

/-- Upper bound for the second byte of a three-byte UTF-8 sequence
(excludes surrogate encodings when the lead byte is 237). -/
def cont2Hi (b1 : Nat) : Nat := if b1 = 237 then 159 else 191

/-- Lower bound for the second byte of a four-byte UTF-8 sequence. -/
def cont3Lo (b1 : Nat) : Nat := if b1 = 240 then 144 else 128

/-- Upper bound for the second byte of a four-byte UTF-8 sequence. -/
def cont3Hi (b1 : Nat) : Nat := if b1 = 244 then 143 else 191

/-- Percent-decoding on a character list; `none` models a thrown `URIError`. -/
def decodeChars : List Char → Option (List Char)
  | [] => some []
  | '%' :: h1 :: h2 :: rest =>
    match hexVal h1, hexVal h2 with
    | some a, some b =>
      let b1 := 16 * a + b
      if b1 < 128 then
        match decodeChars rest with
        | some t => some (Char.ofNat b1 :: t)
        | none => none
      else if 194 ≤ b1 ∧ b1 ≤ 223 then
        match rest with
        | '%' :: h3 :: h4 :: rest2 =>
          match hexVal h3, hexVal h4 with
          | some c1, some d1 =>
            let b2 := 16 * c1 + d1
            if 128 ≤ b2 ∧ b2 ≤ 191 then
              match decodeChars rest2 with
              | some t => some (Char.ofNat ((b1 - 192) * 64 + (b2 - 128)) :: t)
              | none => none
            else none
          | _, _ => none
        | _ => none
      else if 224 ≤ b1 ∧ b1 ≤ 239 then
        match rest with
        | '%' :: h3 :: h4 :: '%' :: h5 :: h6 :: rest2 =>
          match hexVal h3, hexVal h4, hexVal h5, hexVal h6 with
          | some c1, some d1, some e1, some f1 =>
            let b2 := 16 * c1 + d1
            let b3 := 16 * e1 + f1
            if cont2Lo b1 ≤ b2 ∧ b2 ≤ cont2Hi b1 ∧ 128 ≤ b3 ∧ b3 ≤ 191 then
              match decodeChars rest2 with
              | some t =>
                some (Char.ofNat ((b1 - 224) * 4096 + (b2 - 128) * 64 + (b3 - 128)) :: t)
              | none => none
            else none
          | _, _, _, _ => none
        | _ => none
      else if 240 ≤ b1 ∧ b1 ≤ 244 then
        match rest with
        | '%' :: h3 :: h4 :: '%' :: h5 :: h6 :: '%' :: h7 :: h8 :: rest2 =>
          match hexVal h3, hexVal h4, hexVal h5, hexVal h6, hexVal h7, hexVal h8 with
          | some c1, some d1, some e1, some f1, some g1, some i1 =>
            let b2 := 16 * c1 + d1
            let b3 := 16 * e1 + f1
            let b4 := 16 * g1 + i1
            if cont3Lo b1 ≤ b2 ∧ b2 ≤ cont3Hi b1 ∧ 128 ≤ b3 ∧ b3 ≤ 191 ∧
                128 ≤ b4 ∧ b4 ≤ 191 then
              match decodeChars rest2 with
              | some t =>
                some (Char.ofNat ((b1 - 240) * 262144 + (b2 - 128) * 4096 +
                  (b3 - 128) * 64 + (b4 - 128)) :: t)
              | none => none
            else none
          | _, _, _, _, _, _ => none
        | _ => none
      else none
    | _, _ => none
  | '%' :: _ => none
  | c :: rest =>
    match decodeChars rest with
    | some t => some (c :: t)
    | none => none

/-- `decodeURIComponent`; `none` models a thrown `URIError`. -/
def decodeURIComponent (s : String) : Option String :=
  (decodeChars s.data).map List.asString

/-! ### Navigation controller data model

Hooks, loaders and renderers are arbitrary JavaScript callbacks; they are
embedded by their observable outcome on the navigation at hand.  Browser
collaborators (URL resolution, URL decomposition, the transport with its
content/title extraction) are an explicit `Env` of functions.  Observable
side effects (fetches, patches, history writes, hook invocations, the hard
fallback) are recorded in an effect trace. -/

/-- Errors thrown inside the navigation pipeline. -/
inductive Err
  | network
  | badStatus
  | loaderFail
  | renderFail
  | hookFail
  deriving DecidableEq, Repr

/-- Observable side effects of the controller, in order of occurrence. -/
inductive Effect
  | beforeHook (i : Nat)
  | afterHook (i : Nat)
  | errorHook (i : Nat) (e : Err)
  | routeResolved
  | fetchUrl (url : String)
  | patchHtml (html : String)
  | runScriptsEff
  | pushState (url : String)
  | replaceState (url : String)
  | scrollEff (y : Int)
  | warnEff
  | fullNavigation (url : String)
  deriving DecidableEq, Repr

/-- Outcome of one `beforeEach` hook on the current context:
continue, return `false`, return a redirect string, or throw. -/
inductive BeforeResult
  | cont
  | abort
  | redirect (url : String)
  | raise
  deriving DecidableEq, Repr

/-- Overall outcome of `_runBeforeHooks`. -/
inductive BeforeOutcome
  | proceed
  | halted
  | redirected (url : String)
  deriving DecidableEq, Repr

/-- Route options: a loader, a renderer and a static template, each optional.
The loader is embedded by its outcome on this navigation's context; the
renderer by its outcome as a function of the (possibly absent) loader data. -/
structure RouteOptions where
  loader : Option (Except Err String)
  render : Option (Option String → Except Err String)
  template : Option String

/-- A registered route: key list and compiled matcher, plus options.  The
compiled `RegExp` object is embedded by its match function on a pathname,
returning the capture list `m[1], m[2], ...` on success. -/
structure RouteEntry where
  keys : List String
  rmatch : String → Option (List String)
  opts : RouteOptions

/-- Result of `_matchRoute` (query extraction is collaborator work on the
URL's search component and is not needed by any claim). -/
structure MatchResult where
  route : RouteEntry
  params : List (String × String)
  pathname : String

/-- The `keys.forEach` loop of `_matchRoute` (lines 434-437):
`params[k] = decodeURIComponent(m[i + 1] || "")`.  A `URIError` from
`decodeURIComponent` propagates out of the loop, modelled as `none`. -/
def decodeParamsGo : Nat → List String → List String → Option (List (String × String))
  | _, [], _ => some []
  | i, k :: ks, caps =>
    match decodeURIComponent ((caps[i]?).getD "") with
    | none => none
    | some v =>
      match decodeParamsGo (i + 1) ks caps with
      | none => none
      | some t => some ((k, v) :: t)

/-- Parameter extraction with percent-decoding for a capture list. -/
def decodeParams (keys caps : List String) : Option (List (String × String)) :=
  decodeParamsGo 0 keys caps

/-- Embedding of `_matchRoute` (lines 427-446) on the URL's pathname: linear
scan in registration order, first regex match wins; a `URIError` thrown while
decoding that route's params is caught by the surrounding try, which returns
`null` for the whole call (so later routes are not tried). -/
def matchRoute : List RouteEntry → String → Option MatchResult
  | [], _ => none
  | r :: rs, p =>
    match r.rmatch p with
    | some caps =>
      match decodeParams r.keys caps with
      | some ps => some ⟨r, ps, p⟩
      | none => none
    | none => matchRoute rs p

/-- Router configuration (the options exercised by the claims). -/
structure Config where
  cache : Bool
  prefetchOnHover : Bool
  deriving DecidableEq, Repr

/-- Entry of the rendered-content cache `stateCache`. -/
structure CacheEntry where
  html : String
  title : String
  deriving DecidableEq, Repr

/-- A transport response after content/title extraction: `ok` is the HTTP
success flag, `html` the extracted container content, `title` the title. -/
structure FetchResult where
  ok : Bool
  html : String
  title : String
  deriving DecidableEq, Repr

/-- Browser collaborators: URL resolution against the current location,
pathname extraction, and the transport (`none` models a network error). -/
structure Env where
  resolve : String → String
  pathnameOf : String → String
  transport : String → Option FetchResult

/-- The controller's mutable state: current location, configuration, route
table, the two URL-keyed caches, the three hook registries (each hook
embedded by its outcome), and whether the container element exists.
`afterHooks`/`errorHooks` record per hook whether it throws. -/
structure RouterState where
  location : String
  config : Config
  routes : List RouteEntry
  stateCache : List (String × CacheEntry)
  loaderCache : List (String × String)
  beforeHooks : List BeforeResult
  afterHooks : List Bool
  errorHooks : List Bool
  containerPresent : Bool

/-- `Map.get` on a URL-keyed store. -/
def assocGet {α : Type} (l : List (String × α)) (k : String) : Option α :=
  (l.find? (fun p => p.1 == k)).map (·.2)

/-- `Map.set` on a URL-keyed store: update in place or append. -/
def assocSet {α : Type} (l : List (String × α)) (k : String) (v : α) :
    List (String × α) :=
  if (assocGet l k).isSome then
    l.map (fun p => if p.1 == k then (k, v) else p)
  else l ++ [(k, v)]

/-- Embedding of `_callErrorHooks` (lines 489-495): every `onError` hook is
invoked in registration order inside its own try/catch, so a throwing hook
(entry `true`) is swallowed and the iteration continues identically. -/
def callErrorHooks : Nat → List Bool → Err → List Effect
  | _, [], _ => []
  | i, _ :: t, e => Effect.errorHook i e :: callErrorHooks (i + 1) t e

/-- Embedding of `_runBeforeHooks` (lines 465-477): sequential, first hook to
return `false` or a string short-circuits; a throwing hook dispatches the
error hooks and aborts. -/
def runBeforeHooks : Nat → List BeforeResult → List Bool → BeforeOutcome × List Effect
  | _, [], _ => (BeforeOutcome.proceed, [])
  | i, h :: t, errHooks =>
    match h with
    | BeforeResult.cont =>
      let (o, effs) := runBeforeHooks (i + 1) t errHooks
      (o, Effect.beforeHook i :: effs)
    | BeforeResult.abort => (BeforeOutcome.halted, [Effect.beforeHook i])
    | BeforeResult.redirect u => (BeforeOutcome.redirected u, [Effect.beforeHook i])
    | BeforeResult.raise =>
      (BeforeOutcome.halted, Effect.beforeHook i :: callErrorHooks 0 errHooks Err.hookFail)

/-- Embedding of `_runAfterHooks` (lines 479-487): sequential; a throwing
hook dispatches the error hooks and the iteration continues. -/
def runAfterHooks : Nat → List Bool → List Bool → List Effect
  | _, [], _ => []
  | i, h :: t, errHooks =>
    let tail := runAfterHooks (i + 1) t errHooks
    if h then Effect.afterHook i :: (callErrorHooks 0 errHooks Err.hookFail ++ tail)
    else Effect.afterHook i :: tail

/-- History effect chosen by the `replace` option. -/
def histEffect (replace : Bool) (full : String) : Effect :=
  if replace then Effect.replaceState full else Effect.pushState full

/-- Scroll effect: `scrollTop !== false` scrolls to the given offset
(`none` embeds an explicit `false`). -/
def scrollEffects : Option Int → List Effect
  | some y => [Effect.scrollEff y]
  | none => []

/-- JavaScript truthiness of an optional string (empty string is falsy). -/
def truthy : Option String → Bool
  | some s => s ≠ ""
  | none => false

/-- The protected route pipeline of `navigate` (lines 266-345), up to the
first thrown error: loader-cache consultation, loader invocation and
memoisation, then renderer / template / fetch-fallback, then scripts,
history, scroll and `afterEach` hooks.  Returns the final state, the effect
trace of the body, and the thrown error if any. -/
def routeBody (env : Env) (st : RouterState) (full : String) (m : MatchResult)
    (replace : Bool) (scrollTop : Option Int) :
    RouterState × List Effect × Option Err :=
  let r := m.route
  let data0 := assocGet st.loaderCache full
  let loaderStage : RouterState × Option String × Option Err :=
    if truthy data0 then (st, data0, none)
    else
      match r.opts.loader with
      | some (Except.ok d) =>
        ({st with loaderCache := assocSet st.loaderCache full d}, some d, none)
      | some (Except.error e) => (st, data0, some e)
      | none => (st, data0, none)
  match loaderStage with
  | (st1, _, some e) => (st1, [], some e)
  | (st1, data, none) =>
    let renderStage : RouterState × List Effect × Option Err :=
      match r.opts.render with
      | some f =>
        match f data with
        | Except.ok html => (st1, [Effect.patchHtml html], none)
        | Except.error e => (st1, [], some e)
      | none =>
        match r.opts.template with
        | some t => (st1, [Effect.patchHtml t], none)
        | none =>
          match assocGet st1.stateCache full with
          | some c => (st1, [Effect.patchHtml c.html], none)
          | none =>
            match env.transport full with
            | none => (st1, [Effect.fetchUrl full], some Err.network)
            | some fr =>
              if fr.ok then
                let st2 :=
                  if st1.config.cache then
                    {st1 with stateCache := assocSet st1.stateCache full ⟨fr.html, fr.title⟩}
                  else st1
                (st2, [Effect.fetchUrl full, Effect.patchHtml fr.html], none)
              else (st1, [Effect.fetchUrl full], some Err.badStatus)
    match renderStage with
    | (st2, effs, some e) => (st2, effs, some e)
    | (st2, effs, none) =>
      ({st2 with location := full},
        effs ++ [Effect.runScriptsEff, histEffect replace full]
             ++ scrollEffects scrollTop
             ++ runAfterHooks 0 st.afterHooks st.errorHooks,
        none)

/-- The protected no-route fallback of `navigate` (lines 347-386): content
cache first, network second (writing the cache only when configured), then
patch, scripts, history and scroll; `afterEach` hooks do not run on this
path in the source. -/
def fallbackBody (env : Env) (st : RouterState) (full : String)
    (replace : Bool) (scrollTop : Option Int) :
    RouterState × List Effect × Option Err :=
  match assocGet st.stateCache full with
  | some c =>
    ({st with location := full},
      [Effect.patchHtml c.html, Effect.runScriptsEff, histEffect replace full]
        ++ scrollEffects scrollTop,
      none)
  | none =>
    match env.transport full with
    | none => (st, [Effect.fetchUrl full], some Err.network)
    | some fr =>
      if fr.ok then
        let st1 :=
          if st.config.cache then
            {st with stateCache := assocSet st.stateCache full ⟨fr.html, fr.title⟩}
          else st
        ({st1 with location := full},
          [Effect.fetchUrl full, Effect.patchHtml fr.html, Effect.runScriptsEff,
            histEffect replace full] ++ scrollEffects scrollTop,
          none)
      else (st, [Effect.fetchUrl full], some Err.badStatus)

/-- Embedding of `navigate` (lines 244-395).  A history write also moves the
browser location to the target.  The fuel bounds the redirect recursion of a
`beforeEach` hook returning a string (line 261); with fuel `0` the model
returns the state unchanged, which no claim exercises. -/
def navigate (env : Env) : Nat → RouterState → String → Bool → Option Int →
    RouterState × List Effect
  | 0, st, _, _, _ => (st, [])
  | f + 1, st, href, replace, scrollTop =>
    let full := env.resolve href
    if full = st.location then (st, [])
    else if st.containerPresent then
      let (bo, beffs) := runBeforeHooks 0 st.beforeHooks st.errorHooks
      match bo with
      | BeforeOutcome.halted => (st, beffs)
      | BeforeOutcome.redirected u =>
        let (st', effs) := navigate env f st u false (some 0)
        (st', beffs ++ effs)
      | BeforeOutcome.proceed =>
        let body :=
          match matchRoute st.routes (env.pathnameOf full) with
          | some m => routeBody env st full m replace scrollTop
          | none => fallbackBody env st full replace scrollTop
        match body with
        | (st', effs, none) => (st', beffs ++ Effect.routeResolved :: effs)
        | (st', effs, some e) =>
          (st', beffs ++ Effect.routeResolved :: effs
                ++ callErrorHooks 0 st.errorHooks e
                ++ [Effect.warnEff, Effect.fullNavigation href])
    else (st, [Effect.fullNavigation href])

/-- Embedding of the interception branch of `_bindClicks` (lines 113-120),
entered once the gesture guards have passed (primary button, no modifier
keys, local link with an href): the handler runs the `beforeEach` hooks
itself and then delegates to `navigate`, honouring an abort or redirect. -/
def onLinkClick (env : Env) (fuel : Nat) (st : RouterState) (href : String) :
    RouterState × List Effect :=
  let (bo, beffs) := runBeforeHooks 0 st.beforeHooks st.errorHooks
  match bo with
  | BeforeOutcome.halted => (st, beffs)
  | BeforeOutcome.redirected u =>
    let (st', effs) := navigate env fuel st u false (some 0)
    (st', beffs ++ effs)
  | BeforeOutcome.proceed =>
    let (st', effs) := navigate env fuel st href false (some 0)
    (st', beffs ++ effs)

/-- Embedding of the hover prefetch handler of `_bindPrefetch`
(lines 127-165), entered once the element guards have passed: skip when
either cache already holds the URL; pre-run the loader of a matched route
(storing its result, swallowing its failure); otherwise fetch the page and
store the extracted content in the content cache unconditionally. -/
def onHover (env : Env) (st : RouterState) (href : String) :
    RouterState × List Effect :=
  let full := env.resolve href
  if (assocGet st.stateCache full).isSome || (assocGet st.loaderCache full).isSome then
    (st, [])
  else
    match matchRoute st.routes (env.pathnameOf full) with
    | some m =>
      match m.route.opts.loader with
      | some (Except.ok d) =>
        ({st with loaderCache := assocSet st.loaderCache full d}, [])
      | some (Except.error _) => (st, [])
      | none =>
        match env.transport full with
        | some fr =>
          if fr.ok then
            ({st with stateCache := assocSet st.stateCache full ⟨fr.html, fr.title⟩},
              [Effect.fetchUrl full])
          else (st, [Effect.fetchUrl full])
        | none => (st, [Effect.fetchUrl full])
    | none =>
      match env.transport full with
      | some fr =>
        if fr.ok then
          ({st with stateCache := assocSet st.stateCache full ⟨fr.html, fr.title⟩},
            [Effect.fetchUrl full])
        else (st, [Effect.fetchUrl full])
      | none => (st, [Effect.fetchUrl full])

/-- A structural history snapshot (`{html, title, url}`). -/
structure HistorySnapshot where
  html : String
  title : String
  url : String
  deriving DecidableEq, Repr

/-- Embedding of `_onPopState` (lines 397-410).  The browser moves
`location.href` to the popped entry before dispatching the event.  With a
truthy snapshot the surface is patched directly; otherwise the handler calls
`navigate(location.href, replace: true)`. -/
def onPopState (env : Env) (fuel : Nat) (st : RouterState)
    (popped : Option HistorySnapshot) (poppedUrl : String) :
    RouterState × List Effect :=
  let st0 := {st with location := poppedUrl}
  if st0.containerPresent then
    match popped with
    | some s =>
      if s.html ≠ "" then (st0, [Effect.patchHtml s.html, Effect.runScriptsEff])
      else navigate env fuel st0 st0.location true (some 0)
    | none => navigate env fuel st0 st0.location true (some 0)
  else (st0, [])

/-! ### Tree reconciler (`_patch` and helpers, lines 497-732)

The live tree is a tagged variant of element and text nodes (the node kinds
the patcher distinguishes); attributes are an ordered association list.
In-place DOM mutation is modelled by returning the mutated tree; script
activations (insertion of a freshly created script element into the live
document) are recorded as the executed script's text, or its src URL.
All recursion is fuel-bounded so the definitions stay kernel-reducible; any
fuel exceeding the combined tree sizes yields the source behaviour.

Node identity in `_updateChildren`'s keyed map is by object reference; the
model stands in structural search for the first child carrying the key,
which coincides with reference identity for the supported usage of unique
`data-router-key` values among siblings (keys play no role in the claims
settled here).  `_copyInputState` mutates only live control properties
(checked, value, selectedIndex), which are outside the structural tree, so
it is the identity here. -/

/-- An HTML-like node: element with tag, attributes and children, or text.
Tags are stored uppercase, as `tagName` reports them. -/
inductive DNode
  | text (s : String)
  | elem (tag : String) (attrs : List (String × String)) (children : List DNode)
  deriving Repr

/-- `getAttribute`: `none` models `null`. -/
def getAttr (attrs : List (String × String)) (name : String) : Option String :=
  (attrs.find? (fun p => p.1 == name)).map (·.2)

/-- `hasAttribute`. -/
def hasAttr (attrs : List (String × String)) (name : String) : Bool :=
  (getAttr attrs name).isSome

/-- `setAttribute`: update in place, or append a new attribute. -/
def setAttr (attrs : List (String × String)) (name v : String) :
    List (String × String) :=
  if hasAttr attrs name then
    attrs.map (fun p => if p.1 == name then (name, v) else p)
  else attrs ++ [(name, v)]

/-- `hasAttribute` lifted to a node (`false` on text nodes). -/
def hasAttrNode (n : DNode) (name : String) : Bool :=
  match n with
  | DNode.elem _ a _ => hasAttr a name
  | DNode.text _ => false

/-- `getAttribute("data-router-key")` lifted to a node. -/
def nodeKeyOpt : DNode → Option String
  | DNode.elem _ a _ => getAttr a "data-router-key"
  | DNode.text _ => none

/-- The truthy stable key of a node, as the keyed paths test it. -/
def nodeKey (n : DNode) : Option String :=
  match nodeKeyOpt n with
  | some s => if s = "" then none else some s
  | none => none

/-- Keys of the original children, as `keyedOld` collects them (line 633). -/
def keyedKeys (olds : List DNode) : List String :=
  olds.filterMap nodeKey

/-- Embedding of `_isSameNode` (lines 504-519): equal node kinds; any two
text nodes match; elements need an equal tag and, when either side carries a
truthy stable key, equal keys. -/
def isSameNode : DNode → DNode → Bool
  | DNode.text _, DNode.text _ => true
  | DNode.elem t1 a1 _, DNode.elem t2 a2 _ =>
    if t1 ≠ t2 then false
    else
      let ok := getAttr a1 "data-router-key"
      let nk := getAttr a2 "data-router-key"
      if truthy ok || truthy nk then truthy ok && truthy nk && ok == nk
      else true
  | _, _ => false

/-- The `data-preserve` opt-out guard of `_patchNode` (lines 575-581): the
old node is an element and either side carries the attribute. -/
def preservedPair (o n : DNode) : Bool :=
  match o with
  | DNode.elem _ a _ => hasAttr a "data-preserve" || hasAttrNode n "data-preserve"
  | DNode.text _ => false

/-- Embedding of `_updateAttributes` (lines 521-532): drop old attributes
absent on the new side, then set every new attribute whose value differs. -/
def updateAttributes (oldA newA : List (String × String)) :
    List (String × String) :=
  newA.foldl
    (fun acc p => if getAttr acc p.1 == some p.2 then acc else setAttr acc p.1 p.2)
    (oldA.filter (fun p => hasAttr newA p.1))

mutual

/-- Concatenated descendant text (`textContent`). -/
def nodeTextF : Nat → DNode → String
  | 0, _ => ""
  | _ + 1, DNode.text s => s
  | f + 1, DNode.elem _ _ cs => nodeTextListF f cs

/-- `textContent` over a child list. -/
def nodeTextListF : Nat → List DNode → String
  | 0, _ => ""
  | _ + 1, [] => ""
  | f + 1, c :: r => nodeTextF f c ++ nodeTextListF f r

end

/-- Activation of one script element, shared by `_execScriptsInNode` and
`_runScripts` (lines 554-570 and 716-731): skip when `data-router-executed`
is truthy; otherwise recreate the element with copied attributes.  An inline
script gets its text content, executes on insertion and is marked
immediately; a src script starts loading on insertion (recorded as `src:`
plus the URL) and is marked only by its async onload, so the recreated
element carries no mark yet. -/
def activateScript (fuel : Nat) (t : String) (a : List (String × String))
    (cs : List DNode) : DNode × List String :=
  if truthy (getAttr a "data-router-executed") then (DNode.elem t a cs, [])
  else if hasAttr a "src" then
    (DNode.elem t a [], [String.append "src:" ((getAttr a "src").getD "")])
  else
    let txt := nodeTextListF fuel cs
    (DNode.elem t (setAttr a "data-router-executed" "1") [DNode.text txt], [txt])

mutual

/-- Script activation over the descendants of a node, as
`querySelectorAll("script")` enumerates them (the node itself excluded);
script elements contain only text in parsed HTML, so they are leaves. -/
def execBelow : Nat → DNode → DNode × List String
  | 0, n => (n, [])
  | _ + 1, DNode.text s => (DNode.text s, [])
  | f + 1, DNode.elem t a cs =>
    let (cs', es) := execBelowList f cs
    (DNode.elem t a cs', es)

/-- Script activation over a child list (document order). -/
def execBelowList : Nat → List DNode → List DNode × List String
  | 0, l => (l, [])
  | _ + 1, [] => ([], [])
  | f + 1, n :: r =>
    let (n', es1) :=
      match n with
      | DNode.elem "SCRIPT" a cs => activateScript f "SCRIPT" a cs
      | other => execBelow f other
    let (r', es2) := execBelowList f r
    (n' :: r', es1 ++ es2)

end

/-- Embedding of `_runScripts` (lines 714-732) on the container's children:
identical per-script treatment to `_execScriptsInNode`. -/
def runScripts (fuel : Nat) (containerChildren : List DNode) :
    List DNode × List String :=
  execBelowList fuel containerChildren

/-- `insertBefore` at an index (append when the index is past the end). -/
def insertAt {α : Type} : List α → Nat → α → List α
  | l, 0, a => a :: l
  | [], _ + 1, a => [a]
  | x :: l, n + 1, a => x :: insertAt l n a

/-- The lookahead of `_updateChildren` (lines 675-681): first index at or
after `start` whose node is same-node-identical to the new child. -/
def lookAhead (olds : List DNode) (start : Nat) (nc : DNode) : Option Nat :=
  ((olds.drop start).findIdx? (fun c => isSameNode c nc)).map (· + start)

/-- The trailing removal loop of `_updateChildren` (lines 708-710). -/
def trimTo {α : Type} (l : List α) (n : Nat) : List α :=
  if l.length ≤ n then l else l.take n

mutual

/-- Embedding of `_patchNode` (lines 573-626): preserved opt-out, text
update, replacement on identity mismatch (with script activation inside the
inserted clone), else attribute and child reconciliation in place. -/
def patchNode : Nat → DNode → DNode → DNode × List String
  | 0, o, _ => (o, [])
  | f + 1, o, n =>
    if preservedPair o n then (o, [])
    else
      match o, n with
      | DNode.text _, DNode.text s2 => (DNode.text s2, [])
      | o, n =>
        let ok := nodeKeyOpt o
        let nk := nodeKeyOpt n
        if !isSameNode o n || (truthy ok && truthy nk && ok != nk) then
          execBelow f n
        else
          match o, n with
          | DNode.elem ot oa ocs, DNode.elem _ na ncs =>
            let a' := updateAttributes oa na
            let (cs', es) := updateChildren f ocs ncs
            (DNode.elem ot a' cs', es)
          | o, _ => (o, [])

/-- One iteration of the `newChildren.forEach` loop of `_updateChildren`
(lines 642-705), over the current live child list and `oldIndex`. -/
def ucStep : Nat → List String → List DNode → Nat → DNode →
    List DNode × Nat × List String
  | 0, _, olds, oldIndex, _ => (olds, oldIndex, [])
  | f + 1, kk, olds, oldIndex, nc =>
    let oldChild? := olds[oldIndex]?
    let keyed :=
      match nodeKey nc with
      | some k => if k ∈ kk then some k else none
      | none => none
    match keyed with
    | some k =>
      match olds.findIdx? (fun c => nodeKey c == some k) with
      | some j =>
        match olds[j]? with
        | some mnode =>
          if j = oldIndex then
            let (p, es) := patchNode f mnode nc
            (olds.set oldIndex p, oldIndex + 1, es)
          else
            let erased := olds.eraseIdx j
            let pos :=
              if oldChild?.isSome then (if j < oldIndex then oldIndex - 1 else oldIndex)
              else erased.length
            let moved := insertAt erased pos mnode
            let (p, es) := patchNode f mnode nc
            (moved.set pos p, if pos = oldIndex then oldIndex + 1 else oldIndex, es)
        | none => (olds, oldIndex, [])
      | none => ucStepPlain f olds oldIndex nc
    | none => ucStepPlain f olds oldIndex nc

/-- The non-keyed arm of the loop body: append, patch in place, relocate a
looked-ahead identical node, or replace with a clone. -/
def ucStepPlain : Nat → List DNode → Nat → DNode → List DNode × Nat × List String
  | 0, olds, oldIndex, _ => (olds, oldIndex, [])
  | f + 1, olds, oldIndex, nc =>
    match olds[oldIndex]? with
    | none =>
      let (c', es) := execBelow f nc
      (olds ++ [c'], oldIndex + 1, es)
    | some oc =>
      if isSameNode oc nc then
        let (p, es) := patchNode f oc nc
        (olds.set oldIndex p, oldIndex + 1, es)
      else
        match lookAhead olds (oldIndex + 1) nc with
        | some j =>
          match olds[j]? with
          | some mv =>
            let olds1 := insertAt (olds.eraseIdx j) oldIndex mv
            let (p, es) := patchNode f mv nc
            (olds1.set oldIndex p, oldIndex + 1, es)
          | none => (olds, oldIndex, [])
        | none =>
          let (c', es) := execBelow f nc
          (olds.set oldIndex c', oldIndex + 1, es)

/-- The `forEach` loop of `_updateChildren` over all new children. -/
def ucLoop : Nat → List String → List DNode → Nat → List DNode →
    List DNode × Nat × List String
  | 0, _, olds, i, _ => (olds, i, [])
  | _ + 1, _, olds, i, [] => (olds, i, [])
  | f + 1, kk, olds, oldIndex, nc :: rest =>
    let (olds', oldIndex', es1) := ucStep f kk olds oldIndex nc
    let (olds'', oi'', es2) := ucLoop f kk olds' oldIndex' rest
    (olds'', oi'', es1 ++ es2)

/-- Embedding of `_updateChildren` (lines 628-711): keyed map over the
original children, the per-child loop, then trailing removal. -/
def updateChildren : Nat → List DNode → List DNode → List DNode × List String
  | 0, olds, _ => (olds, [])
  | f + 1, olds, news =>
    let kk := keyedKeys olds
    let (olds', _, es) := ucLoop f kk olds 0 news
    (trimTo olds' news.length, es)

end

/-- Embedding of `_patch` (lines 498-502) on the container's child list:
parse the markup (the parsed tree is the input) and reconcile. -/
def patchSurface (fuel : Nat) (containerChildren newTree : List DNode) :
    List DNode × List String :=
  updateChildren fuel containerChildren newTree

/-- One render cycle as `navigate` and `_onPopState` perform it: `_patch`
followed by `_runScripts` on the container. -/
def patchCycle (fuel : Nat) (containerChildren newTree : List DNode) :
    List DNode × List String :=
  let (c1, e1) := patchSurface fuel containerChildren newTree
  let (c2, e2) := runScripts fuel c1
  (c2, e1 ++ e2)

/-! ### Effect-trace descriptions and concrete scenarios -/

/-- The trace of `beforeEach` invocations starting at index `i`, `n` hooks. -/
def beforeTrace : Nat → Nat → List Effect
  | _, 0 => []
  | i, n + 1 => Effect.beforeHook i :: beforeTrace (i + 1) n

/-- The trace of `onError` invocations with error `e`, starting at `i`. -/
def errorTrace (e : Err) : Nat → Nat → List Effect
  | _, 0 => []
  | i, n + 1 => Effect.errorHook i e :: errorTrace e (i + 1) n

/-- A parameterised route as the spec intends one: the compiled matcher of
`/u/:id` embedded as its match function, with one key.  (The source cannot
actually build such an entry — see the C1 analysis — so the entry is given
directly to `_matchRoute`'s embedding.) -/
def demoRoute : RouteEntry :=
  ⟨["id"], fun p => if p = "/u/%" then some ["%"] else none, ⟨none, none, none⟩⟩

/-- An inline script fragment. -/
def demoScript : DNode := DNode.elem "SCRIPT" [] [DNode.text "initWidget()"]

/-- An explicitly preserved element. -/
def presDiv : DNode := DNode.elem "DIV" [("data-preserve", "")] [DNode.text "widget"]

/-- A replacement node of a different tag. -/
def newSpan : DNode := DNode.elem "SPAN" [] []

/-- Environment whose transport always fails with a network error. -/
def failEnv : Env := ⟨fun s => s, fun _ => "/p", fun _ => none⟩

/-- Environment whose transport succeeds with fixed content. -/
def okEnv : Env := ⟨fun s => s, fun _ => "/p", fun _ => some ⟨true, "<b>fresh</b>", "T2"⟩⟩

/-- State with no routes, no cache, two error hooks (the first one throws). -/
def plainSt : RouterState :=
  ⟨"/home", ⟨true, true⟩, [], [], [], [], [], [true, false], true⟩

/-- State whose second `beforeEach` hook returns `false`. -/
def abortSt : RouterState :=
  ⟨"/home", ⟨true, true⟩, [], [],  [],
    [BeforeResult.cont, BeforeResult.abort, BeforeResult.cont], [], [], true⟩

/-- State with one continuing `beforeEach` hook and a cached entry for `/p`. -/
def clickSt : RouterState :=
  ⟨"/home", ⟨true, true⟩, [], [("/p", ⟨"<h1>hi</h1>", "T"⟩)], [],
    [BeforeResult.cont], [], [], true⟩

/-- State with the content cache disabled but an entry already stored. -/
def cacheOffSt : RouterState :=
  ⟨"/home", ⟨false, true⟩, [], [("/p", ⟨"<h1>hi</h1>", "T"⟩)], [], [], [], [], true⟩

/-- State with the content cache disabled and both caches empty. -/
def hoverSt : RouterState :=
  ⟨"/home", ⟨false, true⟩, [], [], [], [], [], [], true⟩

/-! ### Helper lemmas on the hook pipelines -/

theorem callErrorHooks_eq_errorTrace (hooks : List Bool) (e : Err) :
    ∀ i, callErrorHooks i hooks e = errorTrace e i hooks.length := by
  induction hooks with
  | nil => intro i; simp [callErrorHooks, errorTrace]
  | cons a t ih => intro i; simp [callErrorHooks, errorTrace, ih]

theorem runBeforeHooks_all_cont (hooks : List BeforeResult) (eh : List Bool)
    (h : ∀ x ∈ hooks, x = BeforeResult.cont) :
    ∀ i, runBeforeHooks i hooks eh = (BeforeOutcome.proceed, beforeTrace i hooks.length) := by
  induction hooks with
  | nil => intro i; simp [runBeforeHooks, beforeTrace]
  | cons a t ih =>
    intro i
    have ha : a = BeforeResult.cont := h a (by simp)
    have ht : ∀ x ∈ t, x = BeforeResult.cont := fun x hx => h x (by simp [hx])
    simp [runBeforeHooks, ha, ih ht, beforeTrace]

theorem runBeforeHooks_pre_abort (pre post : List BeforeResult) (eh : List Bool)
    (h : ∀ x ∈ pre, x = BeforeResult.cont) :
    ∀ i, runBeforeHooks i (pre ++ BeforeResult.abort :: post) eh =
      (BeforeOutcome.halted, beforeTrace i (pre.length + 1)) := by
  induction pre with
  | nil => intro i; simp [runBeforeHooks, beforeTrace]
  | cons a t ih =>
    intro i
    have ha : a = BeforeResult.cont := h a (by simp)
    have ht : ∀ x ∈ t, x = BeforeResult.cont := fun x hx => h x (by simp [hx])
    simp [runBeforeHooks, ha, ih ht, beforeTrace]

theorem beforeHook_not_mem_errorTrace (i : Nat) (e : Err) :
    ∀ j n, Effect.beforeHook i ∉ errorTrace e j n := by
  intro j n
  induction n generalizing j with
  | zero => simp [errorTrace]
  | succ n ih => simp [errorTrace]; exact ih (j + 1)

/-! ### Claims -/

/-- C1 (code bug): for every registered route pattern, compiling and then
matching a substituted URL is claimed to round-trip the substituted tokens.
In the source this is impossible: step 1 of `_pathToRegex` escapes `:`, so
the `:name` substitution of step 3 produces `\([^/]+)` — an escaped opening
parenthesis followed by an unmatched `)` — and `new RegExp` throws a
`SyntaxError` for every pattern containing a named parameter; moreover the
`*` wildcard is never rewritten to a `(.*)` capture because step 2 looks for
an escaped `\*` that step 1 never produces, as the compiled source of
`/files/*` shows. -/
theorem c1_param_compile_throws :
    pathToRegex "/user/:id" = Except.error "SyntaxError" ∧
    pathToRegex "/files/*" = Except.ok ⟨"^/files/*$", []⟩ :=
  ⟨rfl, rfl⟩

/-- C2 counterexample: for the route pattern `/u/:id` (embedded by its
intended compiled matcher) and the URL pathname `/u/%`, percent-decoding the
captured value `%` fails, and `_matchRoute` returns `null` — the match does
NOT succeed with the raw captured text, contradicting the claim. -/
theorem c2_counterexample :
    decodeURIComponent "%" = none ∧ matchRoute [demoRoute] "/u/%" = none :=
  ⟨rfl, rfl⟩

/-- C2 (corrected): if the first route whose regex matches the pathname has
a captured parameter whose percent-decoding fails, the thrown `URIError`
escapes the route loop and is caught by `_matchRoute`'s surrounding try,
which returns `null`: the whole match fails, and the raw captured text is
never substituted. -/
theorem c2_decode_failure_fails_match (r : RouteEntry) (rs : List RouteEntry)
    (p : String) (caps : List String)
    (hm : r.rmatch p = some caps)
    (hd : decodeParams r.keys caps = none) :
    matchRoute (r :: rs) p = none := by
  simp [matchRoute, hm, hd]

/-- Witness for C2 at the concrete route and URL of the counterexample. -/
theorem c2_witness :
    demoRoute.rmatch "/u/%" = some ["%"] ∧
    decodeParams demoRoute.keys ["%"] = none ∧
    matchRoute [demoRoute] "/u/%" = none :=
  ⟨rfl, rfl, c2_decode_failure_fails_match demoRoute [] "/u/%" ["%"] rfl rfl⟩

/-- C3 (code bug): on a history pop without a structural snapshot the
handler calls `navigate(location.href, replace: true)`, but the browser has
already moved `location.href` to the popped entry, so `navigate`'s first
guard (`full === location.href`) fires and the call returns immediately:
no fetch, no patch, no history replacement — the claimed resynchronising
full navigation never happens. -/
theorem c3_popstate_no_snapshot_noop (env : Env) (st : RouterState)
    (poppedUrl : String) (f : Nat)
    (hres : env.resolve poppedUrl = poppedUrl)
    (hcont : st.containerPresent = true) :
    onPopState env f st none poppedUrl = ({st with location := poppedUrl}, []) := by
  cases f <;> simp [onPopState, navigate, hres, hcont]

/-- Witness for C3: a concrete popped location with the identity resolver. -/
theorem c3_witness :
    failEnv.resolve "/back" = "/back" ∧
    onPopState failEnv 1 plainSt none "/back" = ({plainSt with location := "/back"}, []) :=
  ⟨rfl, c3_popstate_no_snapshot_noop failEnv plainSt "/back" 1 rfl rfl⟩

/-- C4 (code bug): patching markup structurally identical to the rendered
content re-executes an already-activated inline script.  After the first
cycle the live script carries `data-router-executed="1"` and has run once;
re-patching the same markup lets `_updateAttributes` remove the marker
(absent on the parsed new side), so the following `_runScripts` recreates
and re-executes the fragment — two activations in total, refuting
at-most-once activation. -/
theorem c4_script_reactivated_by_identical_patch :
    (patchCycle 16 [] [demoScript]).1 =
      [DNode.elem "SCRIPT" [("data-router-executed", "1")] [DNode.text "initWidget()"]] ∧
    (patchCycle 16 [] [demoScript]).2 = ["initWidget()"] ∧
    (patchCycle 16 (patchCycle 16 [] [demoScript]).1 [demoScript]).2 = ["initWidget()"] :=
  ⟨rfl, rfl, rfl⟩

/-- C5 (confirmed): on a transport failure during `navigate` — network error
or non-success status — every registered `onError` hook is invoked exactly
once with the error, in registration order and independently of which hooks
themselves throw (each entry of `errorHooks` records whether that hook
throws, and the trace depends only on the list's length), and the outcome is
a full non-intercepted navigation to the original target. -/
theorem c5_transport_failure_recovery (env : Env) (st : RouterState)
    (href full : String) (f : Nat) (e : Err)
    (hres : env.resolve href = full)
    (hne : full ≠ st.location)
    (hcont : st.containerPresent = true)
    (hbef : ∀ x ∈ st.beforeHooks, x = BeforeResult.cont)
    (hmatch : matchRoute st.routes (env.pathnameOf full) = none)
    (hcache : assocGet st.stateCache full = none)
    (htr : (env.transport full = none ∧ e = Err.network) ∨
           (∃ fr, env.transport full = some fr ∧ fr.ok = false ∧ e = Err.badStatus)) :
    navigate env (f + 1) st href false (some 0) =
      (st, beforeTrace 0 st.beforeHooks.length
            ++ Effect.routeResolved :: Effect.fetchUrl full
            :: (errorTrace e 0 st.errorHooks.length
                ++ [Effect.warnEff, Effect.fullNavigation href])) := by
  have hb := runBeforeHooks_all_cont st.beforeHooks st.errorHooks hbef 0
  have hce := callErrorHooks_eq_errorTrace st.errorHooks e 0
  rcases htr with ⟨ht, he⟩ | ⟨fr, ht, hok, he⟩ <;> subst he
  · simp [navigate, hres, hne, hcont, hb, hmatch, fallbackBody, hcache, ht, hce]
  · simp [navigate, hres, hne, hcont, hb, hmatch, fallbackBody, hcache, ht, hok, hce]

/-- Witness for C5: two error hooks, the first of which throws, on a failing
transport. -/
theorem c5_witness :
    failEnv.transport "/p" = none ∧
    navigate failEnv 1 plainSt "/p" false (some 0) =
      (plainSt, beforeTrace 0 plainSt.beforeHooks.length
            ++ Effect.routeResolved :: Effect.fetchUrl "/p"
            :: (errorTrace Err.network 0 plainSt.errorHooks.length
                ++ [Effect.warnEff, Effect.fullNavigation "/p"])) :=
  ⟨rfl, c5_transport_failure_recovery failEnv plainSt "/p" "/p" 0 Err.network rfl
    (by decide) rfl (by simp [plainSt]) rfl rfl (Or.inl ⟨rfl, rfl⟩)⟩

/-- C6 (confirmed): a `beforeEach` hook returning `false` (after any prefix
of continuing hooks) aborts `navigate` silently: the returned state is
unchanged and the trace holds only the hook invocations up to and including
the aborting one — no fetch, no patch, no history mutation, and no later
hook runs. -/
theorem c6_before_false_aborts (env : Env) (st : RouterState)
    (href full : String) (pre post : List BeforeResult) (f : Nat)
    (rep : Bool) (sc : Option Int)
    (hres : env.resolve href = full)
    (hne : full ≠ st.location)
    (hcont : st.containerPresent = true)
    (hhooks : st.beforeHooks = pre ++ BeforeResult.abort :: post)
    (hpre : ∀ x ∈ pre, x = BeforeResult.cont) :
    navigate env (f + 1) st href rep sc = (st, beforeTrace 0 (pre.length + 1)) := by
  have hb := runBeforeHooks_pre_abort pre post st.errorHooks hpre 0
  simp [navigate, hres, hne, hcont, hhooks, hb]

/-- Witness for C6: hooks continue, abort, continue — navigation stops after
the second hook. -/
theorem c6_witness :
    abortSt.beforeHooks = [BeforeResult.cont] ++ BeforeResult.abort :: [BeforeResult.cont] ∧
    navigate failEnv 1 abortSt "/p" false (some 0) = (abortSt, beforeTrace 0 2) :=
  ⟨rfl, c6_before_false_aborts failEnv abortSt "/p" "/p" [BeforeResult.cont]
    [BeforeResult.cont] 0 false (some 0) rfl (by decide) rfl rfl (by decide)⟩

/-- C7 (confirmed): `navigate` with a target resolving to the current
location is a no-op for any fuel, options and state: the state is returned
unchanged and the effect trace is empty — no fetch, no history mutation, no
`beforeEach`, `afterEach` or `onError` hook invocation. -/
theorem c7_navigate_current_noop (env : Env) (f : Nat) (st : RouterState)
    (href : String) (rep : Bool) (sc : Option Int)
    (h : env.resolve href = st.location) :
    navigate env f st href rep sc = (st, []) := by
  cases f <;> simp [navigate, h]

/-- Witness for C7 at the current location of a concrete state. -/
theorem c7_witness :
    failEnv.resolve "/home" = plainSt.location ∧
    navigate failEnv 3 plainSt "/home" false (some 0) = (plainSt, []) :=
  ⟨rfl, c7_navigate_current_noop failEnv 3 plainSt "/home" false (some 0) rfl⟩

/-- C8 counterexample: an intercepted click on a link to a new URL with a
single continuing `beforeEach` hook and no abort or redirect invokes that
hook twice, not exactly once as claimed — the click handler runs the hooks
itself (line 116) and `navigate` runs them again (line 259). -/
theorem c8_counterexample :
    ((onLinkClick okEnv 2 clickSt "/p").2.count (Effect.beforeHook 0)) = 2 := by
  rfl

/-- C8 (corrected): for an intercepted link click to a new URL where every
`beforeEach` hook continues, each registered hook is invoked exactly twice —
one full pass in the click handler, a second full pass inside `navigate` —
each pass in registration order, and both passes complete before route
resolution; no hook runs afterwards. -/
theorem c8_hooks_run_twice (env : Env) (st : RouterState) (href full : String) (f : Nat)
    (hres : env.resolve href = full)
    (hne : full ≠ st.location)
    (hcont : st.containerPresent = true)
    (hbef : ∀ x ∈ st.beforeHooks, x = BeforeResult.cont)
    (hmatch : matchRoute st.routes (env.pathnameOf full) = none) :
    ∃ st' rest,
      onLinkClick env (f + 1) st href =
        (st', beforeTrace 0 st.beforeHooks.length
              ++ beforeTrace 0 st.beforeHooks.length
              ++ Effect.routeResolved :: rest) ∧
      ∀ i, Effect.beforeHook i ∉ rest := by
  have hb := runBeforeHooks_all_cont st.beforeHooks st.errorHooks hbef 0
  have hce := callErrorHooks_eq_errorTrace st.errorHooks
  rcases hc : assocGet st.stateCache full with _ | entry
  · rcases ht : env.transport full with _ | fr
    · refine ⟨st, Effect.fetchUrl full
        :: (errorTrace Err.network 0 st.errorHooks.length
            ++ [Effect.warnEff, Effect.fullNavigation href]), ?_, ?_⟩
      · simp [onLinkClick, navigate, hres, hne, hcont, hb, hmatch, fallbackBody, hc, ht, hce]
      · intro i
        simp [beforeHook_not_mem_errorTrace]
    · by_cases hok : fr.ok
      · refine ⟨?_, [Effect.fetchUrl full, Effect.patchHtml fr.html,
          Effect.runScriptsEff, Effect.pushState full, Effect.scrollEff 0], ?_, ?_⟩
        · exact ((if st.config.cache then
            {st with stateCache := assocSet st.stateCache full ⟨fr.html, fr.title⟩}
            else st) |> fun s => {s with location := full})
        · simp [onLinkClick, navigate, hres, hne, hcont, hb, hmatch, fallbackBody,
            hc, ht, hok, histEffect, scrollEffects]
        · intro i; simp
      · refine ⟨st, Effect.fetchUrl full
          :: (errorTrace Err.badStatus 0 st.errorHooks.length
              ++ [Effect.warnEff, Effect.fullNavigation href]), ?_, ?_⟩
        · simp [onLinkClick, navigate, hres, hne, hcont, hb, hmatch, fallbackBody, hc, ht, hok, hce]
        · intro i
          simp [beforeHook_not_mem_errorTrace]
  · refine ⟨{st with location := full}, [Effect.patchHtml entry.html,
      Effect.runScriptsEff, Effect.pushState full, Effect.scrollEff 0], ?_, ?_⟩
    · simp [onLinkClick, navigate, hres, hne, hcont, hb, hmatch, fallbackBody,
        hc, histEffect, scrollEffects]
    · intro i; simp

/-- Witness for C8 at the concrete click scenario of the counterexample. -/
theorem c8_witness :
    (∀ x ∈ clickSt.beforeHooks, x = BeforeResult.cont) ∧
    (∃ st' rest,
      onLinkClick okEnv 2 clickSt "/p" =
        (st', beforeTrace 0 clickSt.beforeHooks.length
              ++ beforeTrace 0 clickSt.beforeHooks.length
              ++ Effect.routeResolved :: rest) ∧
      ∀ i, Effect.beforeHook i ∉ rest) :=
  ⟨by decide, c8_hooks_run_twice okEnv clickSt "/p" "/p" 1 rfl (by decide) rfl
    (by decide) rfl⟩

/-- C9 counterexample: a patch whose new side has a different tag at the
preserved element's position replaces the element outright — the preserved
`DIV` is no longer present afterwards, refuting unconditional preservation
of presence for every patch. -/
theorem c9_counterexample :
    updateChildren 16 [presDiv] [newSpan] = ([newSpan], []) ∧ newSpan ≠ presDiv := by
  refine ⟨by rfl, ?_⟩
  intro h
  injection h with h1 h2 h3
  exact absurd h1 (by decide)

/-- C9 (corrected): an element marked `data-preserve` (on either side) is
left completely untouched — attributes, subtree, and no script activation —
whenever the reconciler pairs it with a counterpart node, i.e. whenever
`_patchNode` is invoked on it; it is not protected from replacement or
removal by the child-reconciliation paths that never call `_patchNode` on it
(identity mismatch at its position, or surplus trailing children). -/
theorem c9_preserved_untouched_in_patchNode (f : Nat) (t : String)
    (a : List (String × String)) (cs : List DNode) (n : DNode)
    (h : hasAttr a "data-preserve" = true ∨ hasAttrNode n "data-preserve" = true) :
    patchNode (f + 1) (DNode.elem t a cs) n = (DNode.elem t a cs, []) := by
  have hp : preservedPair (DNode.elem t a cs) n = true := by
    rcases h with h | h <;> simp [preservedPair, h]
  simp [patchNode, hp]

/-- Witness for C9: `_patchNode` leaves the preserved element untouched even
against a different tag. -/
theorem c9_witness :
    hasAttr [("data-preserve", "")] "data-preserve" = true ∧
    patchNode 1 presDiv newSpan = (presDiv, []) :=
  ⟨rfl, c9_preserved_untouched_in_patchNode 0 "DIV" [("data-preserve", "")]
    [DNode.text "widget"] newSpan (Or.inl rfl)⟩

/-- C10 (confirmed): with the rendered-content cache disabled
(`config.cache = false`), `navigate`'s fetch-fallback path still consults
the content cache and serves a stored entry without any network request
(no fetch effect in the trace), and the hover-prefetch path still writes new
entries unconditionally — disabling the cache only prevents `navigate`'s own
writes. -/
theorem c10_cache_off_still_consults (env env2 : Env) (st st2 : RouterState)
    (href href2 full full2 : String) (entry : CacheEntry) (fr : FetchResult) (f : Nat)
    (hcfg : st.config.cache = false)
    (hres : env.resolve href = full)
    (hne : full ≠ st.location)
    (hcont : st.containerPresent = true)
    (hbef : st.beforeHooks = [])
    (hmatch : matchRoute st.routes (env.pathnameOf full) = none)
    (hcache : assocGet st.stateCache full = some entry)
    (hcfg2 : st2.config.cache = false)
    (hres2 : env2.resolve href2 = full2)
    (hc2 : assocGet st2.stateCache full2 = none)
    (hl2 : assocGet st2.loaderCache full2 = none)
    (hm2 : matchRoute st2.routes (env2.pathnameOf full2) = none)
    (ht2 : env2.transport full2 = some fr) (hok2 : fr.ok = true) :
    navigate env (f + 1) st href false (some 0) =
      ({st with location := full},
        [Effect.routeResolved, Effect.patchHtml entry.html, Effect.runScriptsEff,
          Effect.pushState full, Effect.scrollEff 0]) ∧
    (onHover env2 st2 href2).1.stateCache =
      assocSet st2.stateCache full2 ⟨fr.html, fr.title⟩ := by
  constructor
  · simp [navigate, hres, hne, hcont, hbef, runBeforeHooks, hmatch, fallbackBody,
      hcache, histEffect, scrollEffects]
  · simp [onHover, hres2, hc2, hl2, hm2, ht2, hok2]

/-- Witness for C10: a cache-disabled state with a stored entry is served
without a fetch, and a cache-disabled hover prefetch still stores. -/
theorem c10_witness :
    cacheOffSt.config.cache = false ∧
    assocGet cacheOffSt.stateCache "/p" = some ⟨"<h1>hi</h1>", "T"⟩ ∧
    navigate okEnv 1 cacheOffSt "/p" false (some 0) =
      ({cacheOffSt with location := "/p"},
        [Effect.routeResolved, Effect.patchHtml "<h1>hi</h1>", Effect.runScriptsEff,
          Effect.pushState "/p", Effect.scrollEff 0]) ∧
    (onHover okEnv hoverSt "/q").1.stateCache =
      assocSet hoverSt.stateCache "/q" ⟨"<b>fresh</b>", "T2"⟩ := by
  have h := c10_cache_off_still_consults okEnv okEnv cacheOffSt hoverSt "/p" "/q"
    "/p" "/q" ⟨"<h1>hi</h1>", "T"⟩ ⟨true, "<b>fresh</b>", "T2"⟩ 0 rfl rfl (by decide)
    rfl rfl rfl rfl rfl rfl rfl rfl rfl rfl rfl
  exact ⟨rfl, rfl, h.1, h.2⟩

end SimpleRouter
